import Mathlib

/-!
Verification of the spire error-reporting facility
(src/include/spire/common/exception.hpp).

The header declares the base class `Exception` (its member bodies live in a
translation unit that is not part of the provided sources), defines the
`Error<Tag, Base>` class template inline, introduces the kind typedefs
`SystemError`, `DataError`, `RuntimeError`, `Win32Error`, the context tag
`Win32ErrorInfo`, and the two assertion macros `CHECK` and `WIN_CHECK`.

The embedding below models:
* the C++ class hierarchy created by the typedefs as a finite type
  `ClassTy` together with its ancestor chains (catch-by-type semantics);
* the observable state of an exception object (`ExceptionState`): its
  message string `m_message` and the boost::exception context entries;
* the inline `Error` constructors, the macros, and — modelled from the
  spec where the member bodies are missing — message append, the `what()`
  accessor, and context lookup.
-/

namespace Spire

/-- The classes of the exception hierarchy declared in exception.hpp:
the base class `Exception` and the four `Error` instantiations
(`SystemError`, `DataError`, `RuntimeError` with default base `Exception`,
and `Win32Error` with base `SystemError`). -/
inductive ClassTy where
  | exception
  | systemError
  | dataError
  | runtimeError
  | win32Error
deriving DecidableEq, Repr

/-- Direct base class of each class, read off the typedefs:
`Error<Tag, Base = Exception>` publicly inherits `Base`, so
`SystemError`, `DataError`, `RuntimeError` inherit `Exception` and
`Win32Error = Error<_Win32Error, SystemError>` inherits `SystemError`. -/
def parentOf : ClassTy → Option ClassTy
  | ClassTy.exception => none
  | ClassTy.systemError => some ClassTy.exception
  | ClassTy.dataError => some ClassTy.exception
  | ClassTy.runtimeError => some ClassTy.exception
  | ClassTy.win32Error => some ClassTy.systemError

/-- The ancestor chain of each class (the class itself followed by all its
base classes), spelled out from `parentOf`. A C++ catch clause for class
`H` catches a thrown object of class `C` exactly when `H` is in the
ancestor chain of `C`. -/
def ancestors : ClassTy → List ClassTy
  | ClassTy.exception => [ClassTy.exception]
  | ClassTy.systemError => [ClassTy.systemError, ClassTy.exception]
  | ClassTy.dataError => [ClassTy.dataError, ClassTy.exception]
  | ClassTy.runtimeError => [ClassTy.runtimeError, ClassTy.exception]
  | ClassTy.win32Error => [ClassTy.win32Error, ClassTy.systemError, ClassTy.exception]

/-- The concrete error kinds instantiable by client code: the four
`typedef Error<...>` kinds of the header. The base class `Exception`
is not among them because its message constructor is `protected`
(exception.hpp lines 52-58), so clients can only construct the
`Error` instantiations. -/
inductive ErrorKind where
  | systemError
  | dataError
  | runtimeError
  | win32Error
deriving DecidableEq, Repr

/-- The class a kind's constructor produces. -/
def classOf : ErrorKind → ClassTy
  | ErrorKind.systemError => ClassTy.systemError
  | ErrorKind.dataError => ClassTy.dataError
  | ErrorKind.runtimeError => ClassTy.runtimeError
  | ErrorKind.win32Error => ClassTy.win32Error

/-- Observable state of an `Exception` object: the private member
`std::string m_message` (exception.hpp line 61) and the boost::exception
context entries, modelled as an association list from tag identity
(`Nat`) to the attached value (`Nat`, covering the `DWORD` payload of
`Win32ErrorInfo`). New entries are prepended; lookup takes the first
match, so a later attachment under the same tag shadows an earlier one,
matching boost::exception's replace-on-reattach behaviour. -/
structure ExceptionState where
  m_message : String
  context : List (Nat × Nat)
deriving DecidableEq, Repr

/-- Modelled from the spec: the body of the protected constructor
`Exception(std::string msg)` is not in the provided sources (only its
declaration, exception.hpp lines 52-58). Per the spec the base error
value is constructed from an initial message string, with no context
attached yet. -/
def mkExceptionState (msg : String) : ExceptionState :=
  { m_message := msg, context := [] }

/-- Modelled from the spec: the body of
`Exception& Exception::operator<<(const std::string&)`
(declared at exception.hpp line 43) is not in the provided sources.
Per the spec the append operation concatenates its argument onto the
stored message — pure concatenation, no separator — and returns the
same error value for chaining. -/
def ExceptionState.appendMsg (e : ExceptionState) (msg : String) : ExceptionState :=
  { e with m_message := e.m_message ++ msg }

/-- Modelled from the spec: the body of `const char* Exception::what()`
(declared at exception.hpp line 50) is not in the provided sources.
Per the spec the message accessor returns the fully assembled message. -/
def ExceptionState.what (e : ExceptionState) : String :=
  e.m_message

/-- An error value as thrown and caught by client code: its dynamic class
and the state of its `Exception` subobject. -/
structure ErrorValue where
  cls : ClassTy
  exc : ExceptionState
deriving DecidableEq, Repr

/-- The model of `boost::format` as used in this header: the only
operation the header applies to it is `.str()`, the rendered string. -/
structure Format where
  str : String
deriving DecidableEq, Repr

/-- The `Error(std::string msg) : Base(std::move(msg))` constructor
(exception.hpp lines 79-82): forwards the message string to the base,
which ultimately reaches the `Exception` string constructor. -/
def newError (k : ErrorKind) (msg : String) : ErrorValue :=
  { cls := classOf k, exc := mkExceptionState msg }

/-- The `Error(const boost::format& msg) : Base(msg.str())` constructor
(exception.hpp lines 84-87): renders the format object and delegates to
the string constructor of the base. -/
def newErrorFromFormat (k : ErrorKind) (f : Format) : ErrorValue :=
  newError k f.str

/-- Appending to an error value: `operator<<` acts on the `Exception`
subobject and leaves the dynamic class unchanged. -/
def ErrorValue.append (e : ErrorValue) (msg : String) : ErrorValue :=
  { e with exc := e.exc.appendMsg msg }

/-- The message accessor of an error value (`what()` on the `Exception`
subobject). -/
def ErrorValue.message (e : ErrorValue) : String :=
  e.exc.what

/-- Modelled from the spec: context attachment is performed by
`boost::exception`'s `operator<<(error_info)`, which is external to the
repository. Per the spec (section 4.3) it attaches a strongly-typed
value under a unique tag to the error instance. -/
def attachContext (e : ErrorValue) (tag : Nat) (v : Nat) : ErrorValue :=
  { e with exc := { e.exc with context := (tag, v) :: e.exc.context } }

/-- Modelled from the spec: context retrieval (boost's `get_error_info`,
external to the repository). Per the spec (sections 4.3 and 6) lookup is
by tag and returns "absent" (`none`) when nothing was attached under the
tag. -/
def contextValue (e : ErrorValue) (tag : Nat) : Option Nat :=
  (e.exc.context.find? (fun p => p.fst == tag)).map (fun p => p.snd)

/-- Tag identity of `Win32ErrorInfo = boost::error_info<struct _Win32ErrorInfo, DWORD>`
(exception.hpp line 136). -/
def Win32ErrorInfoTag : Nat := 0

/-- Whether a catch clause for class `h` catches a thrown error value `e`:
true exactly when `h` is an ancestor (base class or self) of `e`'s
dynamic class. -/
def catches (h : ClassTy) (e : ErrorValue) : Bool :=
  (ancestors e.cls).contains h

/-- The `CHECK(except, expr)` macro (exception.hpp line 124):
`if (!(expr)) throw except("Assert failed: " #expr);`
Modelled with the thrown-or-nothing outcome as an `Option`: `desc`
stands for the stringified source text `#expr` of the condition. -/
def CHECK (k : ErrorKind) (cond : Bool) (desc : String) : Option ErrorValue :=
  if !cond then some (newError k ("Assert failed: " ++ desc)) else none

/-- The `WIN_CHECK(expr)` macro (exception.hpp line 145):
`if (!(expr)) throw spire::common::Win32Error("Assert failed: " #expr)
<< spire::common::Win32ErrorInfo(GetLastError());`
`desc` stands for `#expr` and `lastError` for the value of
`GetLastError()` at the raise point. -/
def WIN_CHECK (cond : Bool) (desc : String) (lastError : Nat) : Option ErrorValue :=
  if !cond then
    some (attachContext (newError ErrorKind.win32Error ("Assert failed: " ++ desc))
      Win32ErrorInfoTag lastError)
  else none

/-- Copy (or move) construction of a declared object of class `c` from an
existing error value `e`: C++ permits this whenever `c` is the class of
`e` or one of its base classes, because `Exception`'s copy and move
constructors are public (exception.hpp lines 28 and 33) and the `Error`
instantiations have implicit public ones. The new object's dynamic class
is the declared class `c`; when `c` is a proper base of `e`'s class the
copy slices, keeping only the `Exception` subobject state (modelled from
the spec: the copy constructor produces an independent buffer with the
same message contents). -/
def sliceCopy (e : ErrorValue) (c : ClassTy) : ErrorValue :=
  { cls := c, exc := e.exc }

/-- Error values constructible and throwable through the facility's public
API: the `Error` constructors of the four typedef kinds (from a string or
a format object), the two macros, the operations that transform an
existing error (append, context attachment — which preserve the dynamic
class), and copy/move construction into any declared class of the
hierarchy that is an ancestor of (or equal to) the source's class — the
public copy/move constructors make this possible even for the base class
`Exception`, despite its protected message constructor. -/
inductive Reachable : ErrorValue → Prop where
  | ofString (k : ErrorKind) (msg : String) : Reachable (newError k msg)
  | ofFormat (k : ErrorKind) (f : Format) : Reachable (newErrorFromFormat k f)
  | ofCheck (k : ErrorKind) (cond : Bool) (desc : String) (e : ErrorValue) :
      CHECK k cond desc = some e → Reachable e
  | ofWinCheck (cond : Bool) (desc : String) (lastError : Nat) (e : ErrorValue) :
      WIN_CHECK cond desc lastError = some e → Reachable e
  | appendStep (e : ErrorValue) (msg : String) :
      Reachable e → Reachable (e.append msg)
  | attachStep (e : ErrorValue) (tag v : Nat) :
      Reachable e → Reachable (attachContext e tag v)
  | copyStep (e : ErrorValue) (c : ClassTy) :
      c ∈ ancestors e.cls → Reachable e → Reachable (sliceCopy e c)

/-- The fragment of the construction surface without copy/move
construction into a declared object: fresh construction from a string, a
format object or a macro, plus the class-preserving operations append and
context attachment. -/
inductive ReachableNoSlice : ErrorValue → Prop where
  | ofString (k : ErrorKind) (msg : String) : ReachableNoSlice (newError k msg)
  | ofFormat (k : ErrorKind) (f : Format) : ReachableNoSlice (newErrorFromFormat k f)
  | ofCheck (k : ErrorKind) (cond : Bool) (desc : String) (e : ErrorValue) :
      CHECK k cond desc = some e → ReachableNoSlice e
  | ofWinCheck (cond : Bool) (desc : String) (lastError : Nat) (e : ErrorValue) :
      WIN_CHECK cond desc lastError = some e → ReachableNoSlice e
  | appendStep (e : ErrorValue) (msg : String) :
      ReachableNoSlice e → ReachableNoSlice (e.append msg)
  | attachStep (e : ErrorValue) (tag v : Nat) :
      ReachableNoSlice e → ReachableNoSlice (attachContext e tag v)

/-!
Store model for copy independence (claim C7).

`Exception` declares a copy constructor (exception.hpp line 28) and the
spec requires copies to hold an independent message buffer. To state
independence non-vacuously we model a heap of exception objects: a store
is a list of message strings indexed by object identity. `copyExc`
allocates a fresh object holding a copy of the source's message
(modelled from the spec: the copy constructor's body is not in the
provided sources); `appendAt` performs `operator<<` in place on one
object of the store. -/

/-- A heap of live exception objects, each slot holding that object's
`m_message`. -/
def Store := List String

/-- Modelled from the spec: the copy constructor `Exception(const
Exception& rhs)` (declared at exception.hpp line 28; body not in the
provided sources). Per the spec, copying produces an independent message
buffer with the same contents. Returns the new store and the identity of
the fresh object. -/
def copyExc (s : Store) (i : Nat) : Store × Nat :=
  (List.append s [s.getD i ""], s.length)

/-- In-place `operator<<` on object `i` of the store: concatenates `msg`
onto that object's message, leaving every other object untouched. -/
def appendAt (s : Store) (i : Nat) (msg : String) : Store :=
  s.set i (s.getD i "" ++ msg)

end Spire

namespace Spire

/-! Helper lemmas. -/

/-- Concatenation of a list of strings. -/
def joinAll : List String → String
  | [] => ""
  | x :: xs => x ++ joinAll xs

/-- Message after folding a sequence of appends: the initial message
followed by the concatenation of all appended strings. -/
theorem message_foldl (e : ErrorValue) (l : List String) :
    (List.foldl ErrorValue.append e l).message = e.message ++ joinAll l := by
  induction l generalizing e with
  | nil => simp [joinAll]
  | cons x xs ih =>
      simp only [List.foldl_cons, ih, joinAll]
      show (e.append x).message ++ _ = _
      simp [ErrorValue.append, ErrorValue.message, ExceptionState.appendMsg,
        ExceptionState.what, String.append_assoc]

/-- No error kind maps to the base class. -/
theorem classOf_ne_exception (k : ErrorKind) : classOf k ≠ ClassTy.exception := by
  cases k <;> simp [classOf]

/-- Setting the freshly appended last slot of a store leaves the slots of
the original objects untouched. -/
theorem getD_set_append (s : List String) (x y : String) (i : Nat)
    (h : i < s.length) :
    ((List.append s [x]).set s.length y).getD i "" = s.getD i "" := by
  induction s generalizing i with
  | nil => cases h
  | cons a as ih =>
      cases i with
      | zero => rfl
      | succ n =>
          have hn : n < as.length := by
            simpa [Nat.succ_lt_succ_iff] using h
          simpa [List.set, List.getD] using ih n hn

end Spire

namespace Spire

/-- C1: for every kind `k` and all message strings `m1`, `m2`,
constructing an error of kind `k` with initial message `m1` and then
appending `m2` yields a message accessor result equal to the plain
concatenation `m1 ++ m2`, with no separator inserted. -/
theorem C1_append_pure_concat (k : ErrorKind) (m1 m2 : String) :
    ((newError k m1).append m2).message = m1 ++ m2 :=
  rfl

/-- C2: the `CHECK` macro with a false condition raises an error of
exactly the given kind whose message is exactly `"Assert failed: "`
followed by the description; with a true condition it raises nothing. -/
theorem C2_check_raises_on_false (k : ErrorKind) (desc : String) :
    (∃ e, CHECK k false desc = some e ∧ e.cls = classOf k ∧
        e.message = "Assert failed: " ++ desc) ∧
    CHECK k true desc = none :=
  ⟨⟨newError k ("Assert failed: " ++ desc), rfl, rfl, rfl⟩, rfl⟩

/-- C3: the `WIN_CHECK` macro with a false condition raises a
`Win32Error` whose message is `"Assert failed: "` followed by the call
description and which carries the last error code under the
`Win32ErrorInfo` tag; with a true condition it raises nothing. -/
theorem C3_win_check_raises_on_false (desc : String) (lastError : Nat) :
    (∃ e, WIN_CHECK false desc lastError = some e ∧
        e.cls = ClassTy.win32Error ∧
        e.message = "Assert failed: " ++ desc ∧
        contextValue e Win32ErrorInfoTag = some lastError) ∧
    WIN_CHECK true desc lastError = none :=
  ⟨⟨attachContext (newError ErrorKind.win32Error ("Assert failed: " ++ desc))
      Win32ErrorInfoTag lastError, rfl, rfl, rfl, rfl⟩, rfl⟩

/-- C4: every error of class `Win32Error` is catchable both as
`Win32Error` and as `SystemError`, while no error of class `SystemError`
is catchable as `Win32Error`. -/
theorem C4_win32_widening_no_narrowing (e1 e2 : ErrorValue)
    (h1 : e1.cls = ClassTy.win32Error) (h2 : e2.cls = ClassTy.systemError) :
    catches ClassTy.win32Error e1 = true ∧
    catches ClassTy.systemError e1 = true ∧
    catches ClassTy.win32Error e2 = false := by
  refine ⟨?_, ?_, ?_⟩
  · unfold catches; rw [h1]; decide
  · unfold catches; rw [h1]; decide
  · unfold catches; rw [h2]; decide

/-- Witness for C4 at concrete errors. -/
theorem C4_win32_widening_no_narrowing_witness :
    catches ClassTy.win32Error (newError ErrorKind.win32Error "w") = true ∧
    catches ClassTy.systemError (newError ErrorKind.win32Error "w") = true ∧
    catches ClassTy.win32Error (newError ErrorKind.systemError "s") = false :=
  C4_win32_widening_no_narrowing (newError ErrorKind.win32Error "w")
    (newError ErrorKind.systemError "s") rfl rfl

/-- C5: for every message string, an error of kind System is catchable
as System but not as Data, and an error of kind Data is catchable as
Data but not as System. -/
theorem C5_system_data_exclusive (m : String) :
    catches ClassTy.systemError (newError ErrorKind.systemError m) = true ∧
    catches ClassTy.dataError (newError ErrorKind.systemError m) = false ∧
    catches ClassTy.dataError (newError ErrorKind.dataError m) = true ∧
    catches ClassTy.systemError (newError ErrorKind.dataError m) = false :=
  ⟨rfl, rfl, rfl, rfl⟩

/-- C6: after attaching `v` under tag `t` on an error that carries
nothing under a distinct tag `u`, lookup of `t` returns exactly `v` and
lookup of `u` returns `none` (absent), not a default value. -/
theorem C6_context_lookup (e : ErrorValue) (t u v : Nat)
    (h1 : t ≠ u) (h2 : contextValue e u = none) :
    contextValue (attachContext e t v) t = some v ∧
    contextValue (attachContext e t v) u = none := by
  constructor
  · simp [contextValue, attachContext, List.find?_cons]
  · have hne : (t == u) = false := by
      simp [h1]
    have step : contextValue (attachContext e t v) u = contextValue e u := by
      simp [contextValue, attachContext, List.find?_cons, hne]
    rw [step, h2]

/-- Witness for C6 at a concrete error, tags and value. -/
theorem C6_context_lookup_witness :
    contextValue (attachContext (newError ErrorKind.systemError "m") 1 5) 1 = some 5 ∧
    contextValue (attachContext (newError ErrorKind.systemError "m") 1 5) 2 = none :=
  C6_context_lookup (newError ErrorKind.systemError "m") 1 2 5 (by decide) rfl

/-- C7: copying an error object and then appending to the copy leaves
the message of the original object unchanged (the copy holds an
independent message buffer). -/
theorem C7_copy_independence (s : Store) (i : Nat) (m : String)
    (h : i < List.length s) :
    List.getD (appendAt (copyExc s i).fst (copyExc s i).snd m) i "" =
      List.getD s i "" :=
  getD_set_append s (List.getD s i "")
    (List.getD (List.append s [List.getD s i ""]) (List.length s) "" ++ m) i h

/-- Witness for C7 on a concrete two-object store. -/
theorem C7_copy_independence_witness :
    List.getD (appendAt (copyExc ["a", "b"] 0).fst (copyExc ["a", "b"] 0).snd "x") 0 "" =
      List.getD ["a", "b"] 0 "" :=
  C7_copy_independence ["a", "b"] 0 "x" (by decide)

/-- C8: the message only grows: for any sequence of appends, the message
after any initial segment of the sequence is a prefix of the message
after the whole sequence, and context attachment never alters the
message. -/
theorem C8_message_only_grows (e : ErrorValue) (l1 l2 : List String)
    (tag v : Nat) :
    (∃ t, (List.foldl ErrorValue.append e (List.append l1 l2)).message =
        (List.foldl ErrorValue.append e l1).message ++ t) ∧
    (attachContext e tag v).message = e.message := by
  refine ⟨⟨joinAll l2, ?_⟩, rfl⟩
  rw [show List.append l1 l2 = l1 ++ l2 from rfl, List.foldl_append]
  exact message_foldl (List.foldl ErrorValue.append e l1) l2

/-- C9: every kind is constructible from a plain string and from a
format object, and the format constructor delegates to the string
constructor: constructing from `f` equals constructing from `f.str`,
in particular the messages agree. -/
theorem C9_format_ctor_delegates (k : ErrorKind) (f : Format) :
    newErrorFromFormat k f = newError k f.str ∧
    (newErrorFromFormat k f).message = (newError k f.str).message :=
  ⟨rfl, rfl⟩

/-- C10 counterexample: a kind-less error value is creatable and
throwable through the facility's public API. `Exception e(SystemError("m"));
throw e;` compiles because the copy constructor (exception.hpp line 28)
is public, and the resulting object's dynamic class is the base class
`Exception` (the copy slices). -/
theorem C10_sliced_exception_counterexample :
    Reachable (sliceCopy (newError ErrorKind.systemError "m") ClassTy.exception) ∧
    (sliceCopy (newError ErrorKind.systemError "m") ClassTy.exception).cls =
      ClassTy.exception :=
  ⟨Reachable.copyStep (newError ErrorKind.systemError "m") ClassTy.exception
      (by decide) (Reachable.ofString ErrorKind.systemError "m"),
    rfl⟩

/-- C10 (amended): the protected message constructor keeps `Exception`
out of fresh construction — every error value created from a message
string, a format object or one of the macros, and modified only by
append or context attachment, is of some concrete `Error` kind, never of
the base class `Exception`. Only copy/move construction into a declared
base-class object (slicing, possible because the copy/move constructors
are public) can yield a kind-less `Exception` value. -/
theorem C10_no_kindless_without_slicing (e : ErrorValue)
    (h : ReachableNoSlice e) :
    e.cls ≠ ClassTy.exception ∧ ∃ k, e.cls = classOf k := by
  have hex : ∃ k, e.cls = classOf k := by
    induction h with
    | ofString k msg => exact ⟨k, rfl⟩
    | ofFormat k f => exact ⟨k, rfl⟩
    | ofCheck k cond desc e heq =>
        cases cond with
        | true => simp [CHECK] at heq
        | false =>
            simp [CHECK] at heq
            subst heq
            exact ⟨k, rfl⟩
    | ofWinCheck cond desc lastError e heq =>
        cases cond with
        | true => simp [WIN_CHECK] at heq
        | false =>
            simp [WIN_CHECK] at heq
            subst heq
            exact ⟨ErrorKind.win32Error, rfl⟩
    | appendStep e msg hr ih => exact ih
    | attachStep e tag v hr ih => exact ih
  obtain ⟨k, hk⟩ := hex
  exact ⟨by rw [hk]; exact classOf_ne_exception k, ⟨k, hk⟩⟩

/-- Witness for the amended C10 at a concrete freshly constructed error. -/
theorem C10_no_kindless_without_slicing_witness :
    (newError ErrorKind.runtimeError "x").cls ≠ ClassTy.exception ∧
    ∃ k, (newError ErrorKind.runtimeError "x").cls = classOf k :=
  C10_no_kindless_without_slicing (newError ErrorKind.runtimeError "x")
    (ReachableNoSlice.ofString ErrorKind.runtimeError "x")

end Spire
